import Mathlib

/-!
  # NebulAuth SDK — request authentication and replay protection

  A verification of the authentication-header subsystem of the NebulAuth
  client SDK (`src/lib.rs`): canonical-path resolution, canonical-string
  construction, HMAC-SHA256 signing, and the four-way header-assembly
  policy (`None` / `Nonce` / `Strict` / proof-of-possession).

  Modelling conventions:
  * Byte strings are `List Nat` with every entry below 256; 32-bit words
    are `Nat` reduced modulo `2 ^ 32` where overflow matters.
  * SHA-256 and HMAC-SHA256 (the external `sha2` / `hmac` crates) are
    implemented concretely (FIPS 180-4 / RFC 2104).  HMAC key setup is
    total — a key longer than the 64-byte block is pre-hashed, a shorter
    one zero-padded — mirroring the fact that the hmac-crate function
    `new_from_slice` accepts keys of any length for HMAC.
  * URL parsing (the external `url` crate) is a parameter
    `parsePath : String → Option String` standing for
    `Url::parse(u).map(|u| u.path())`, `Option.none` meaning a parse failure.
  * The system clock and the OS random source are modelled by passing the
    drawn timestamp and nonce explicitly (`SigningEnv`).
  * The Rust `HashMap<String, String>` type is modelled as an association list
    with overwriting insert; only key lookup is observable.
-/

namespace NebulAuth

/-! ## 32-bit word arithmetic -/

/-- Addition modulo `2 ^ 32`. -/
def add32 (a b : Nat) : Nat := (a + b) % 4294967296

/-- Right rotation of a 32-bit word by `n` places. -/
def rotr32 (n x : Nat) : Nat :=
  Nat.lor (x >>> n) ((x <<< (32 - n)) % 4294967296)

/-- Bitwise complement of a 32-bit word. -/
def not32 (x : Nat) : Nat := Nat.xor x 4294967295

/-- Three-way exclusive or. -/
def xor3 (a b c : Nat) : Nat := Nat.xor (Nat.xor a b) c

/-! ## SHA-256 (FIPS 180-4) -/

/-- SHA-256 choice function `Ch(x, y, z)`. -/
def ch (x y z : Nat) : Nat :=
  Nat.xor (Nat.land x y) (Nat.land (not32 x) z)

/-- SHA-256 majority function `Maj(x, y, z)`. -/
def maj (x y z : Nat) : Nat :=
  Nat.xor (Nat.xor (Nat.land x y) (Nat.land x z)) (Nat.land y z)

/-- SHA-256 big sigma 0. -/
def bigSigma0 (x : Nat) : Nat := xor3 (rotr32 2 x) (rotr32 13 x) (rotr32 22 x)

/-- SHA-256 big sigma 1. -/
def bigSigma1 (x : Nat) : Nat := xor3 (rotr32 6 x) (rotr32 11 x) (rotr32 25 x)

/-- SHA-256 small sigma 0. -/
def smallSigma0 (x : Nat) : Nat := xor3 (rotr32 7 x) (rotr32 18 x) (x >>> 3)

/-- SHA-256 small sigma 1. -/
def smallSigma1 (x : Nat) : Nat := xor3 (rotr32 17 x) (rotr32 19 x) (x >>> 10)

/-- The 64 SHA-256 round constants (FIPS 180-4 section 4.2.2, the first
32 bits of the fractional parts of the cube roots of the first 64 primes,
written in decimal). -/
def K256 : List Nat :=
  [1116352408, 1899447441, 3049323471, 3921009573, 961987163,
   1508970993, 2453635748, 2870763221, 3624381080, 310598401,
   607225278, 1426881987, 1925078388, 2162078206, 2614888103,
   3248222580, 3835390401, 4022224774, 264347078, 604807628,
   770255983, 1249150122, 1555081692, 1996064986, 2554220882,
   2821834349, 2952996808, 3210313671, 3336571891, 3584528711,
   113926993, 338241895, 666307205, 773529912, 1294757372,
   1396182291, 1695183700, 1986661051, 2177026350, 2456956037,
   2730485921, 2820302411, 3259730800, 3345764771, 3516065817,
   3600352804, 4094571909, 275423344, 430227734, 506948616,
   659060556, 883997877, 958139571, 1322822218, 1537002063,
   1747873779, 1955562222, 2024104815, 2227730452, 2361852424,
   2428436474, 2756734187, 3204031479, 3329325298]

/-- The SHA-256 initial hash state (FIPS 180-4 section 5.3.3, in
decimal). -/
def H256 : List Nat :=
  [1779033703, 3144134277, 1013904242, 2773480762,
   1359893119, 2600822924, 528734635, 1541459225]

/-- The `k` lowest bytes of `n`, most significant first. -/
def beBytes : Nat → Nat → List Nat
  | 0, _ => []
  | k + 1, n => (n >>> (8 * k)) % 256 :: beBytes k n

/-- Group bytes into big-endian 32-bit words. -/
def toWords : List Nat → List Nat
  | a :: b :: c :: d :: rest =>
      (((a * 256 + b) * 256 + c) * 256 + d) :: toWords rest
  | _ => []

/-- SHA-256 message padding: append `0x80`, zeros, and the 64-bit
big-endian bit length, reaching a multiple of 64 bytes. -/
def sha256_pad (msg : List Nat) : List Nat :=
  let l := msg.length
  let zeros := (119 - l % 64) % 64
  msg ++ 128 :: List.replicate zeros 0 ++ beBytes 8 (8 * l)

/-- Extend a 16-word message block by `k` further schedule words. -/
def extendW : List Nat → Nat → List Nat
  | w, 0 => w
  | w, k + 1 =>
      let n := w.length
      let wt := add32 (add32 (smallSigma1 (w.getD (n - 2) 0)) (w.getD (n - 7) 0))
        (add32 (smallSigma0 (w.getD (n - 15) 0)) (w.getD (n - 16) 0))
      extendW (w ++ [wt]) k

/-- One SHA-256 round on the eight-word working state. -/
def compressStep (s : List Nat) (kw : Nat × Nat) : List Nat :=
  match s with
  | [a, b, c, d, e, f, g, h] =>
      let t1 := add32 h (add32 (bigSigma1 e) (add32 (ch e f g) (add32 kw.1 kw.2)))
      let t2 := add32 (bigSigma0 a) (maj a b c)
      [add32 t1 t2, a, b, c, add32 d t1, e, f, g]
  | other => other

/-- Compress one padded 64-byte block into the hash state. -/
def compressBlock (h : List Nat) (block : List Nat) : List Nat :=
  let w := extendW (toWords block) 48
  let s := (K256.zip w).foldl compressStep h
  (h.zip s).map fun p => add32 p.1 p.2

/-- Split a padded message into 64-byte blocks (`fuel` bounds recursion). -/
def sha256_chunks : Nat → List Nat → List (List Nat)
  | 0, _ => []
  | _, [] => []
  | fuel + 1, l => l.take 64 :: sha256_chunks fuel (l.drop 64)

/-- SHA-256 of a byte string, as 32 digest bytes. -/
def sha256 (msg : List Nat) : List Nat :=
  let padded := sha256_pad msg
  let hh := (sha256_chunks padded.length padded).foldl compressBlock H256
  (hh.map (beBytes 4)).flatten

/-- HMAC-SHA256 (RFC 2104).  Key setup is total for any key length: a key
longer than the 64-byte block is pre-hashed, a shorter one zero-padded. -/
def hmacSha256 (key msg : List Nat) : List Nat :=
  let k0 := if 64 < key.length then sha256 key else key
  let kp := k0 ++ List.replicate (64 - k0.length) 0
  let inner := sha256 (kp.map (fun b => Nat.xor b 54) ++ msg)
  sha256 (kp.map (fun b => Nat.xor b 92) ++ inner)

/-! ## Byte and hex encodings -/

/-- UTF-8 encoding of one Unicode scalar value. -/
def utf8EncodeChar (c : Nat) : List Nat :=
  if c < 128 then [c]
  else if c < 2048 then [192 + c / 64, 128 + c % 64]
  else if c < 65536 then
    [224 + c / 4096, 128 + (c / 64) % 64, 128 + c % 64]
  else
    [240 + c / 262144, 128 + (c / 4096) % 64, 128 + (c / 64) % 64, 128 + c % 64]

/-- The UTF-8 bytes of a string (Rust `str::as_bytes`). -/
def strBytes (s : String) : List Nat :=
  (s.data.map (fun c => utf8EncodeChar c.toNat)).flatten

/-- Lower-case hex digit of a nibble (source `nibble_to_hex`). -/
def nibble_to_hex (n : Nat) : Char :=
  if n ≤ 9 then Char.ofNat (48 + n) else Char.ofNat (97 + (n - 10))

/-- Lower-case hex encoding of a byte string, most significant nibble
first (source `hex_lower`). -/
def hex_lower (bytes : List Nat) : String :=
  String.mk ((bytes.map fun b => [nibble_to_hex ((b >>> 4) % 16), nibble_to_hex (b % 16)]).flatten)

/-- Hex-encoded SHA-256 of a string (source `sha256_hex`). -/
def sha256_hex (input : String) : String :=
  hex_lower (sha256 (strBytes input))

/-! ## Data model (source `lib.rs`) -/

/-- The replay-protection mode of the client (source `ReplayProtectionMode`). -/
inductive ReplayProtectionMode where
  | None
  | Nonce
  | Strict
deriving DecidableEq

/-- The SDK error type (source `NebulAuthError`).  `Url` wraps the parse
error of the `url` crate, `Request` the transport error; messages are
strings. -/
inductive NebulAuthError where
  | Config (msg : String)
  | Request (msg : String)
  | Url (msg : String)
  | Crypto (msg : String)
deriving DecidableEq

/-- Client construction options (source `NebulAuthClientOptions`). -/
structure NebulAuthClientOptions where
  base_url : String
  bearer_token : Option String
  signing_secret : Option String
  service_slug : Option String
  replay_protection : ReplayProtectionMode
  timeout_ms : Nat

/-- The effectful inputs of one signing run: the millisecond timestamp
drawn from the system clock (`current_timestamp_ms`) and the random nonce
(`random_nonce`), passed explicitly. -/
structure SigningEnv where
  timestamp_ms : Nat
  nonce : String

/-- Classify an SDK result by its outcome: `0` success, `1` `Config`,
`2` `Request`, `3` `Url`, `4` `Crypto`. -/
def errClass {α : Type} : Except NebulAuthError α → Nat
  | Except.ok _ => 0
  | Except.error (NebulAuthError.Config _) => 1
  | Except.error (NebulAuthError.Request _) => 2
  | Except.error (NebulAuthError.Url _) => 3
  | Except.error (NebulAuthError.Crypto _) => 4

/-! ## Header maps

The Rust `HashMap<String, String>` type modelled as an association list in which
`insert` overwrites any earlier binding of the key. -/

/-- `HashMap::insert`: bind `k` to `v`, dropping any earlier binding. -/
def hinsert (m : List (String × String)) (k v : String) : List (String × String) :=
  m.filter (fun q => q.1 != k) ++ [(k, v)]

/-- `HashMap::remove`: drop any binding of `k`. -/
def hremove (m : List (String × String)) (k : String) : List (String × String) :=
  m.filter (fun q => q.1 != k)

/-- `HashMap::extend`: insert every binding of `n` into `m`. -/
def hextend (m n : List (String × String)) : List (String × String) :=
  n.foldl (fun acc kv => hinsert acc kv.1 kv.2) m

/-- Look up the value bound to `k`, if any. -/
def hlookup (m : List (String × String)) (k : String) : Option String :=
  (m.find? (fun q => q.1 == k)).map (fun q => q.2)

/-! ## Canonical path, canonical string, signing (source `lib.rs`) -/

/-- Rust `str::starts_with` on a string pattern. -/
def str_starts_with (s pre : String) : Bool :=
  pre.data.isPrefixOf s.data

/-- Drop the first `n` characters (the source slices off the matched
prefix `path[base_path.len()..]`; under the prefix guard the byte slice
and the character drop agree). -/
def str_drop (s : String) (n : Nat) : String :=
  String.mk (s.data.drop n)

/-- Prepend `/` when missing (the final fixup of `canonical_path`). -/
def ensure_slash (s : String) : String :=
  if str_starts_with s "/" then s else "/" ++ s

/-- Source `canonical_path`: parse the URL (modelled by `parsePath`),
strip the configured base path when it prefixes the path, map an empty
remainder to `/`, and finally ensure a leading `/`. -/
def canonical_path (base_path : String) (parsePath : String → Option String)
    (url : String) : Except NebulAuthError String :=
  match parsePath url with
  | Option.none => Except.error (NebulAuthError.Url "url parse failed")
  | Option.some p =>
      let path :=
        if base_path ≠ "" ∧ str_starts_with p base_path then
          let stripped := str_drop p base_path.data.length
          if stripped = "" then "/" else stripped
        else p
      Except.ok (ensure_slash path)

/-- The canonical signing string: the five fields joined by single
newlines, in fixed order, with no trailing newline (the `format!` in
`build_signing_headers`; the method is uppercased at the call site). -/
def canonical_string (method path timestamp nonce body_hash : String) : String :=
  method ++ "\n" ++ path ++ "\n" ++ timestamp ++ "\n" ++ nonce ++ "\n" ++ body_hash

/-- Source `build_signing_headers`: resolve the canonical path, build the
canonical string from the uppercased method, timestamp, nonce and body
hash, sign it with HMAC-SHA256 under `secret`, and emit the four signing
headers.  The `Crypto` error branch of the source wraps HMAC key setup, which
accepts any key length; the modelled HMAC is likewise total, so no
`Crypto` error is produced. -/
def build_signing_headers (base_path : String) (parsePath : String → Option String)
    (env : SigningEnv) (method url body_string secret : String) :
    Except NebulAuthError (List (String × String)) :=
  match canonical_path base_path parsePath url with
  | Except.error e => Except.error e
  | Except.ok path =>
      let timestamp := toString env.timestamp_ms
      let nonce := env.nonce
      let body_hash := sha256_hex body_string
      let canonical := canonical_string method.toUpper path timestamp nonce body_hash
      let signature := hex_lower (hmacSha256 (strBytes secret) (strBytes canonical))
      let headers := hinsert [] "X-Timestamp" timestamp
      let headers := hinsert headers "X-Nonce" nonce
      let headers := hinsert headers "X-Signature" signature
      let headers := hinsert headers "X-Body-Sha256" body_hash
      Except.ok headers

/-- Source `build_auth_headers`: the four-way policy.  A PoP override
demands the per-call access token and PoP key and signs with the PoP key;
otherwise the bearer token is required, and under `Nonce`/`Strict` the
client signing secret signs the request, `Nonce` dropping the
`X-Body-Sha256` header after signing. -/
def build_auth_headers (opts : NebulAuthClientOptions) (base_path : String)
    (parsePath : String → Option String) (env : SigningEnv)
    (method url body_string : String) (use_pop : Bool)
    (access_token pop_key : Option String) :
    Except NebulAuthError (List (String × String)) :=
  if use_pop then
    match access_token with
    | Option.none =>
        Except.error (NebulAuthError.Config "access_token is required when use_pop=true")
    | Option.some token =>
        match pop_key with
        | Option.none =>
            Except.error (NebulAuthError.Config "pop_key is required when use_pop=true")
        | Option.some key =>
            match build_signing_headers base_path parsePath env method url body_string key with
            | Except.error e => Except.error e
            | Except.ok headers =>
                Except.ok (hinsert headers "Authorization" ("Bearer " ++ token))
  else
    match opts.bearer_token with
    | Option.none =>
        Except.error (NebulAuthError.Config "bearer_token is required for bearer mode")
    | Option.some token =>
        let headers := hinsert [] "Authorization" ("Bearer " ++ token)
        if opts.replay_protection ≠ ReplayProtectionMode.None then
          match opts.signing_secret with
          | Option.none =>
              Except.error (NebulAuthError.Config
                "signing_secret is required when replay_protection is nonce/strict")
          | Option.some signing_secret =>
              match build_signing_headers base_path parsePath env method url body_string
                  signing_secret with
              | Except.error e => Except.error e
              | Except.ok signing_headers =>
                  let signing_headers :=
                    if opts.replay_protection = ReplayProtectionMode.Nonce then
                      hremove signing_headers "X-Body-Sha256"
                    else signing_headers
                  Except.ok (hextend headers signing_headers)
        else
          Except.ok headers

/-! ## Specification-side definitions -/

/-- A string with no newline character: a legal canonical-string field. -/
def nlFree (s : String) : Prop := '\n' ∉ s.data

instance nlFreeDecidable (s : String) : Decidable (nlFree s) :=
  inferInstanceAs (Decidable ('\n' ∉ s.data))

/-- The four signing headers `build_signing_headers` emits for resolved
path `q`: the signature is HMAC-SHA256 under `secret` of the five-field
newline-joined canonical string. -/
def signing_header_set (env : SigningEnv) (method q body secret : String) :
    List (String × String) :=
  [("X-Timestamp", toString env.timestamp_ms), ("X-Nonce", env.nonce),
   ("X-Signature", hex_lower (hmacSha256 (strBytes secret)
     (strBytes (method.toUpper ++ "\n" ++ q ++ "\n" ++ toString env.timestamp_ms
       ++ "\n" ++ env.nonce ++ "\n" ++ sha256_hex body)))),
   ("X-Body-Sha256", sha256_hex body)]

/-! ## Concrete witness data -/

/-- A parser fixture: every URL resolves to the path `/api/v1/keys/verify`. -/
def wparse : String → Option String := fun _ => Option.some "/api/v1/keys/verify"

/-- A parser fixture resolving to the bare base path `/api/v1`. -/
def wparse2 : String → Option String := fun _ => Option.some "/api/v1"

/-- A concrete request URL. -/
def wurl : String := "https://api.nebulauth.com/api/v1/keys/verify"

/-- A concrete base URL with an empty endpoint path. -/
def wurl2 : String := "https://api.nebulauth.com/api/v1"

/-- A concrete signing environment: fixed timestamp and nonce. -/
def wenv : SigningEnv := { timestamp_ms := 1700000000000, nonce := "abc123" }

/-- Concrete client options: mode `None`, bearer token and secret set. -/
def wopts : NebulAuthClientOptions :=
  { base_url := "https://api.nebulauth.com/api/v1"
    bearer_token := Option.some "mk_at_test"
    signing_secret := Option.some "mk_sig_test"
    service_slug := Option.none
    replay_protection := ReplayProtectionMode.None
    timeout_ms := 15000 }

/-- Concrete client options: mode `Strict` with no signing secret. -/
def wopts_strict_nosec : NebulAuthClientOptions :=
  { wopts with replay_protection := ReplayProtectionMode.Strict
               signing_secret := Option.none }

/-! ## Helper lemmas -/

/-! ## Basic string lemmas -/

theorem data_append (s t : String) : (s ++ t).data = s.data ++ t.data := by
  cases s; cases t; rfl

theorem newline_data : "\n".data = ['\n'] := rfl

theorem string_data_inj {s t : String} (h : s.data = t.data) : s = t := by
  cases s; cases t; exact congrArg String.mk h


/-- Splitting at the first separator of a newline-joined pair is unambiguous
when neither left part contains a newline. -/
theorem nl_split : ∀ (a b u v : List Char), '\n' ∉ a → '\n' ∉ b →
    a ++ '\n' :: u = b ++ '\n' :: v → a = b ∧ u = v := by
  intro a
  induction a with
  | nil =>
    intro b u v _ hb h
    cases b with
    | nil => simpa using h
    | cons c bs =>
      simp only [List.nil_append, List.cons_append, List.cons.injEq] at h
      rw [← h.1] at hb
      exact absurd (List.mem_cons_self _ _) hb
  | cons c as ih =>
    intro b u v ha hb h
    cases b with
    | nil =>
      simp only [List.cons_append, List.nil_append, List.cons.injEq] at h
      rw [h.1] at ha
      exact absurd (List.mem_cons_self _ _) ha
    | cons d bs =>
      simp only [List.cons_append, List.cons.injEq] at h
      obtain ⟨hcd, hrest⟩ := h
      have hr := ih bs u v (fun hm => ha (List.mem_cons_of_mem _ hm))
        (fun hm => hb (List.mem_cons_of_mem _ hm)) hrest
      exact ⟨by rw [hcd, hr.1], hr.2⟩

/-! ## Computation lemmas for the embedded operations -/

theorem ensure_slash_starts (s : String) :
    str_starts_with (ensure_slash s) "/" = true := by
  unfold ensure_slash
  by_cases h : str_starts_with s "/" = true
  · rw [if_pos h]; exact h
  · rw [if_neg h]
    unfold str_starts_with
    rw [data_append]
    simp [List.isPrefixOf]

theorem canonical_path_some (base : String) (parse : String → Option String)
    (url p : String) (hp : parse url = Option.some p) :
    canonical_path base parse url = Except.ok (ensure_slash
      (if base ≠ "" ∧ str_starts_with p base then
        (if str_drop p base.data.length = "" then "/" else str_drop p base.data.length)
       else p)) := by
  rw [canonical_path.eq_def, hp]

theorem build_signing_headers_ok (bp : String) (parse : String → Option String)
    (env : SigningEnv) (method url body secret q : String)
    (hq : canonical_path bp parse url = Except.ok q) :
    build_signing_headers bp parse env method url body secret =
      Except.ok (signing_header_set env method q body secret) := by
  rw [build_signing_headers.eq_def, hq]
  rfl

theorem build_auth_headers_strict_ok (opts : NebulAuthClientOptions) (bp : String)
    (parse : String → Option String) (env : SigningEnv)
    (method url body : String) (atok pkey : Option String) (tok sec q : String)
    (hmode : opts.replay_protection = ReplayProtectionMode.Strict)
    (hb : opts.bearer_token = Option.some tok)
    (hs : opts.signing_secret = Option.some sec)
    (hq : canonical_path bp parse url = Except.ok q) :
    build_auth_headers opts bp parse env method url body false atok pkey =
      Except.ok (("Authorization", "Bearer " ++ tok) :: signing_header_set env method q body sec) := by
  rw [build_auth_headers.eq_def, hb, hmode, hs]
  simp only [build_signing_headers.eq_def, hq]
  rfl

theorem build_auth_headers_nonce_ok (opts : NebulAuthClientOptions) (bp : String)
    (parse : String → Option String) (env : SigningEnv)
    (method url body : String) (atok pkey : Option String) (tok sec q : String)
    (hmode : opts.replay_protection = ReplayProtectionMode.Nonce)
    (hb : opts.bearer_token = Option.some tok)
    (hs : opts.signing_secret = Option.some sec)
    (hq : canonical_path bp parse url = Except.ok q) :
    build_auth_headers opts bp parse env method url body false atok pkey =
      Except.ok [("Authorization", "Bearer " ++ tok),
        ("X-Timestamp", toString env.timestamp_ms), ("X-Nonce", env.nonce),
        ("X-Signature", hex_lower (hmacSha256 (strBytes sec)
          (strBytes (method.toUpper ++ "\n" ++ q ++ "\n" ++ toString env.timestamp_ms
            ++ "\n" ++ env.nonce ++ "\n" ++ sha256_hex body))))] := by
  rw [build_auth_headers.eq_def, hb, hmode, hs]
  simp only [build_signing_headers.eq_def, hq]
  rfl

theorem build_auth_headers_pop_ok (opts : NebulAuthClientOptions) (bp : String)
    (parse : String → Option String) (env : SigningEnv)
    (method url body token key q : String)
    (hq : canonical_path bp parse url = Except.ok q) :
    build_auth_headers opts bp parse env method url body true
        (Option.some token) (Option.some key) =
      Except.ok (signing_header_set env method q body key
        ++ [("Authorization", "Bearer " ++ token)]) := by
  rw [build_auth_headers.eq_def]
  simp only [build_signing_headers.eq_def, hq]
  rfl

/-! ## The claims -/

/-- C1: with `use_pop = true`, `build_auth_headers` fails with a `Config`
error unless both the access token and the PoP key are supplied; when both
are supplied it signs with the PoP key as the HMAC secret regardless of
the configured client mode (the options are arbitrary here), and the
returned header set carries `Authorization: Bearer {access_token}`
together with all four signing headers. -/
theorem C1_pop_override (opts : NebulAuthClientOptions) (bp : String)
    (parse : String → Option String) (env : SigningEnv)
    (method url body token key q : String) (pk : Option String)
    (hq : canonical_path bp parse url = Except.ok q) :
    errClass (build_auth_headers opts bp parse env method url body true Option.none pk) = 1 ∧
    errClass (build_auth_headers opts bp parse env method url body true
      (Option.some token) Option.none) = 1 ∧
    build_auth_headers opts bp parse env method url body true
        (Option.some token) (Option.some key) =
      Except.ok (signing_header_set env method q body key
        ++ [("Authorization", "Bearer " ++ token)]) ∧
    hlookup (signing_header_set env method q body key
      ++ [("Authorization", "Bearer " ++ token)]) "Authorization" =
        Option.some ("Bearer " ++ token) ∧
    hlookup (signing_header_set env method q body key
      ++ [("Authorization", "Bearer " ++ token)]) "X-Timestamp" =
        Option.some (toString env.timestamp_ms) ∧
    hlookup (signing_header_set env method q body key
      ++ [("Authorization", "Bearer " ++ token)]) "X-Nonce" =
        Option.some env.nonce ∧
    hlookup (signing_header_set env method q body key
      ++ [("Authorization", "Bearer " ++ token)]) "X-Signature" =
        Option.some (hex_lower (hmacSha256 (strBytes key)
          (strBytes (method.toUpper ++ "\n" ++ q ++ "\n" ++ toString env.timestamp_ms
            ++ "\n" ++ env.nonce ++ "\n" ++ sha256_hex body)))) ∧
    hlookup (signing_header_set env method q body key
      ++ [("Authorization", "Bearer " ++ token)]) "X-Body-Sha256" =
        Option.some (sha256_hex body) :=
  ⟨rfl, rfl, build_auth_headers_pop_ok opts bp parse env method url body token key q hq,
    rfl, rfl, rfl, rfl, rfl⟩

/-- C2: when the target URL resolves to canonical path `q`, the emitted
`X-Signature` is the lowercase-hex HMAC-SHA256, keyed by the secret, of
exactly the five fields — uppercased method, path, timestamp, nonce, and
body SHA-256 hex — joined by single newlines with no trailing newline,
and `X-Body-Sha256` is the SHA-256 hex of the body. -/
theorem C2_canonical_string_signature (bp : String) (parse : String → Option String)
    (env : SigningEnv) (method url body secret q : String)
    (hq : canonical_path bp parse url = Except.ok q) :
    build_signing_headers bp parse env method url body secret =
      Except.ok [("X-Timestamp", toString env.timestamp_ms), ("X-Nonce", env.nonce),
        ("X-Signature", hex_lower (hmacSha256 (strBytes secret)
          (strBytes (method.toUpper ++ "\n" ++ q ++ "\n" ++ toString env.timestamp_ms
            ++ "\n" ++ env.nonce ++ "\n" ++ sha256_hex body)))),
        ("X-Body-Sha256", sha256_hex body)] :=
  build_signing_headers_ok bp parse env method url body secret q hq

/-- C3: without a PoP override, Strict mode emits `X-Body-Sha256` while
Nonce mode omits it, yet the Nonce-mode `X-Signature` equals the
Strict-mode one for identical inputs: it is computed over the canonical
string whose fifth field is still the body hash. -/
theorem C3_nonce_omits_body_hash_only (opts : NebulAuthClientOptions) (bp : String)
    (parse : String → Option String) (env : SigningEnv)
    (method url body tok sec q : String) (atok pkey : Option String)
    (hb : opts.bearer_token = Option.some tok)
    (hs : opts.signing_secret = Option.some sec)
    (hq : canonical_path bp parse url = Except.ok q) :
    build_auth_headers { opts with replay_protection := ReplayProtectionMode.Strict }
        bp parse env method url body false atok pkey =
      Except.ok (("Authorization", "Bearer " ++ tok) :: signing_header_set env method q body sec) ∧
    build_auth_headers { opts with replay_protection := ReplayProtectionMode.Nonce }
        bp parse env method url body false atok pkey =
      Except.ok [("Authorization", "Bearer " ++ tok),
        ("X-Timestamp", toString env.timestamp_ms), ("X-Nonce", env.nonce),
        ("X-Signature", hex_lower (hmacSha256 (strBytes sec)
          (strBytes (method.toUpper ++ "\n" ++ q ++ "\n" ++ toString env.timestamp_ms
            ++ "\n" ++ env.nonce ++ "\n" ++ sha256_hex body))))] ∧
    hlookup (("Authorization", "Bearer " ++ tok) :: signing_header_set env method q body sec)
      "X-Body-Sha256" = Option.some (sha256_hex body) ∧
    hlookup [("Authorization", "Bearer " ++ tok),
        ("X-Timestamp", toString env.timestamp_ms), ("X-Nonce", env.nonce),
        ("X-Signature", hex_lower (hmacSha256 (strBytes sec)
          (strBytes (method.toUpper ++ "\n" ++ q ++ "\n" ++ toString env.timestamp_ms
            ++ "\n" ++ env.nonce ++ "\n" ++ sha256_hex body))))] "X-Body-Sha256" =
      Option.none ∧
    hlookup [("Authorization", "Bearer " ++ tok),
        ("X-Timestamp", toString env.timestamp_ms), ("X-Nonce", env.nonce),
        ("X-Signature", hex_lower (hmacSha256 (strBytes sec)
          (strBytes (method.toUpper ++ "\n" ++ q ++ "\n" ++ toString env.timestamp_ms
            ++ "\n" ++ env.nonce ++ "\n" ++ sha256_hex body))))] "X-Signature" =
      hlookup (("Authorization", "Bearer " ++ tok) :: signing_header_set env method q body sec)
        "X-Signature" :=
  ⟨build_auth_headers_strict_ok _ bp parse env method url body atok pkey tok sec q rfl hb hs hq,
   build_auth_headers_nonce_ok _ bp parse env method url body atok pkey tok sec q rfl hb hs hq,
   rfl, rfl, rfl⟩

/-- Every list is a `isPrefixOf` of itself. -/
theorem isPrefixOf_self (l : List Char) : l.isPrefixOf l = true := by
  induction l with
  | nil => rfl
  | cons c cs ih => simp [List.isPrefixOf, ih]

/-- C4 (amended): for a parseable URL whose path is `p`, `canonical_path`
strips a matching non-empty base-path prefix, maps an empty remainder to
`/`, keeps `p` on prefix mismatch, and in every case prepends a leading
`/` when the result lacks one — so the result always starts with `/`, and
base path `/api/v1` with URL path `/api/v1` resolves to `/`. -/
theorem C4_canonical_path_strips (base : String) (parse : String → Option String)
    (url p q : String) (hp : parse url = Option.some p)
    (hq : canonical_path base parse url = Except.ok q) :
    str_starts_with q "/" = true ∧
    (base ≠ "" ∧ str_starts_with p base = true →
      q = ensure_slash (if str_drop p base.data.length = "" then "/"
        else str_drop p base.data.length)) ∧
    (base = "" ∨ str_starts_with p base = false → q = ensure_slash p) ∧
    (base ≠ "" ∧ p = base → q = "/") := by
  rw [canonical_path_some base parse url p hp] at hq
  have hqe := (Except.ok.injEq _ _).mp hq.symm
  constructor
  · rw [hqe]; exact ensure_slash_starts _
  refine ⟨?_, ?_, ?_⟩
  · intro hcond
    rw [hqe, if_pos ⟨hcond.1, hcond.2⟩]
  · intro hcond
    rw [hqe, if_neg]
    intro hand
    rcases hcond with hbase | hpre
    · exact hand.1 hbase
    · rw [hand.2] at hpre
      exact Bool.noConfusion hpre
  · intro hcond
    obtain ⟨hbase, hpb⟩ := hcond
    subst hpb
    have hpre : str_starts_with p p = true := by
      unfold str_starts_with
      exact isPrefixOf_self p.data
    rw [hqe, if_pos ⟨hbase, hpre⟩]
    have hdrop : str_drop p p.data.length = "" := by
      unfold str_drop
      rw [List.drop_length]
    rw [if_pos hdrop]
    rfl

/-- C4 counterexample: the `url` crate parses `mailto:foo` with path
component `foo`; the base-path prefix does not match, yet the result is
`/foo`, not the unmodified path `foo` — the claim text "leaves the path
unmodified" conflicts with its "always starts with `/`". -/
theorem C4_counterexample :
    canonical_path "/api/v1" (fun _ => Option.some "foo") "mailto:foo" =
      Except.ok "/foo" ∧
    decide (("/foo" : String) = "foo") = false := by
  constructor
  · rfl
  · rfl

/-- C5 (amended): `canonical_path` fails exactly when the URL does not
parse, and the failure is the `Url` parse-error variant (class `3`), not
`Config`; on any parseable URL it succeeds — in particular it never fails
on a base-path prefix mismatch. -/
theorem C5_canonical_path_errors (base : String) (parse : String → Option String)
    (url : String) :
    (parse url = Option.none →
      canonical_path base parse url = Except.error (NebulAuthError.Url "url parse failed")) ∧
    (∀ p, parse url = Option.some p → errClass (canonical_path base parse url) = 0) := by
  constructor
  · intro h
    rw [canonical_path.eq_def, h]
  · intro p h
    rw [canonical_path_some base parse url p h]
    rfl

/-- C5 counterexample: on an unparseable URL, `canonical_path` returns
the `Url` error variant (class `3`), not `Config` (class `1`) — every
failure of `canonical_path` is a `NebulAuthError::Url`, refuting the
claim that failures are `ConfigError`s. -/
theorem C5_counterexample :
    errClass (canonical_path "/api/v1" (fun _ => Option.none) "::not a url::") = 3 ∧
    decide (errClass (canonical_path "/api/v1" (fun _ => Option.none) "::not a url::") = 1)
      = false := by
  constructor
  · rfl
  · rfl

/-- C6: with the configured mode `Strict`, no PoP override, and no
signing secret, `build_auth_headers` returns a `Config` error (class `1`)
— not a panic and not a header set missing the signing headers. -/
theorem C6_strict_missing_secret (opts : NebulAuthClientOptions) (bp : String)
    (parse : String → Option String) (env : SigningEnv)
    (method url body : String) (atok pkey : Option String)
    (hmode : opts.replay_protection = ReplayProtectionMode.Strict)
    (hsec : opts.signing_secret = Option.none) :
    errClass (build_auth_headers opts bp parse env method url body false atok pkey) = 1 := by
  cases hb : opts.bearer_token with
  | none =>
    simp only [build_auth_headers.eq_def, hb]
    rfl
  | some tok =>
    simp only [build_auth_headers.eq_def, hb, hmode, hsec]
    rfl

/-- C7: with the configured mode `None` and no PoP override, a missing
bearer token yields a `Config` error, and a present bearer token yields
exactly the single `Authorization: Bearer` header — no `X-Timestamp`,
`X-Nonce`, `X-Signature` or `X-Body-Sha256`, and no signing computation
(the result does not depend on URL, body, clock or nonce). -/
theorem C7_none_mode_bearer_only (opts : NebulAuthClientOptions) (bp : String)
    (parse : String → Option String) (env : SigningEnv)
    (method url body tok : String) (atok pkey : Option String)
    (hmode : opts.replay_protection = ReplayProtectionMode.None) :
    (opts.bearer_token = Option.none →
      build_auth_headers opts bp parse env method url body false atok pkey =
        Except.error (NebulAuthError.Config "bearer_token is required for bearer mode")) ∧
    (opts.bearer_token = Option.some tok →
      build_auth_headers opts bp parse env method url body false atok pkey =
        Except.ok [("Authorization", "Bearer " ++ tok)]) := by
  constructor
  · intro hb
    simp only [build_auth_headers.eq_def, hb]
    rfl
  · intro hb
    simp only [build_auth_headers.eq_def, hb, hmode]
    rfl

/-- C8: the canonical string admits no concatenation collisions — on
newline-free fields it is injective, so changing any single field changes
the input of the signature. -/
theorem C8_canonical_string_injective (m p t n b m2 p2 t2 n2 b2 : String)
    (hm : nlFree m) (hp : nlFree p) (ht : nlFree t) (hn : nlFree n) (_hb : nlFree b)
    (hm2 : nlFree m2) (hp2 : nlFree p2) (ht2 : nlFree t2) (hn2 : nlFree n2)
    (_hb2 : nlFree b2)
    (h : canonical_string m p t n b = canonical_string m2 p2 t2 n2 b2) :
    m = m2 ∧ p = p2 ∧ t = t2 ∧ n = n2 ∧ b = b2 := by
  have hd := congrArg String.data h
  simp only [canonical_string, data_append, newline_data, List.append_assoc,
    List.cons_append, List.nil_append, List.singleton_append] at hd
  obtain ⟨h1, hd⟩ := nl_split _ _ _ _ hm hm2 hd
  obtain ⟨h2, hd⟩ := nl_split _ _ _ _ hp hp2 hd
  obtain ⟨h3, hd⟩ := nl_split _ _ _ _ ht ht2 hd
  obtain ⟨h4, hd⟩ := nl_split _ _ _ _ hn hn2 hd
  exact ⟨string_data_inj h1, string_data_inj h2, string_data_inj h3,
    string_data_inj h4, string_data_inj hd⟩

/-- C9: `build_signing_headers` never returns the `Crypto` error: HMAC
key setup accepts every secret, empty included, so the outcome is success
(class `0`) on a parseable URL and the `Url` error (class `3`) otherwise
— the `Crypto` branch (class `4`) is unreachable. -/
theorem C9_crypto_error_unreachable (bp : String) (parse : String → Option String)
    (env : SigningEnv) (method url body secret : String) :
    errClass (build_signing_headers bp parse env method url body secret) =
      (match parse url with
       | Option.none => 3
       | Option.some _ => 0) := by
  cases h : parse url with
  | none =>
    simp only [build_signing_headers.eq_def, canonical_path.eq_def, h]
    rfl
  | some p =>
    rw [build_signing_headers_ok bp parse env method url body secret _
      (canonical_path_some bp parse url p h)]
    rfl

/-- C10: the PoP path reads nothing from the client configuration: two
clients with arbitrary (possibly different) options, given the same base
path, parser, timestamp, nonce, method, URL, body, access token and PoP
key, produce identical header sets. -/
theorem C10_pop_ignores_client_config (opts1 opts2 : NebulAuthClientOptions)
    (bp : String) (parse : String → Option String) (env : SigningEnv)
    (method url body token key : String) :
    build_auth_headers opts1 bp parse env method url body true
        (Option.some token) (Option.some key) =
      build_auth_headers opts2 bp parse env method url body true
        (Option.some token) (Option.some key) := rfl

/-- Witness for C1 at a concrete input: with mode `None` configured, a
PoP call still signs with the PoP key and returns the full header set. -/
theorem C1_witness :
    canonical_path "/api/v1" wparse wurl = Except.ok "/keys/verify" ∧
    build_auth_headers wopts "/api/v1" wparse wenv "POST" wurl "null" true
        (Option.some "at") (Option.some "pk") =
      Except.ok (signing_header_set wenv "POST" "/keys/verify" "null" "pk"
        ++ [("Authorization", "Bearer " ++ "at")]) :=
  ⟨rfl, (C1_pop_override wopts "/api/v1" wparse wenv "POST" wurl "null" "at" "pk"
    "/keys/verify" Option.none rfl).2.2.1⟩

/-- Witness for C2 at a concrete input. -/
theorem C2_witness :
    canonical_path "/api/v1" wparse wurl = Except.ok "/keys/verify" ∧
    build_signing_headers "/api/v1" wparse wenv "POST" wurl "null" "mk_sig_test" =
      Except.ok [("X-Timestamp", toString wenv.timestamp_ms), ("X-Nonce", wenv.nonce),
        ("X-Signature", hex_lower (hmacSha256 (strBytes "mk_sig_test")
          (strBytes ("POST".toUpper ++ "\n" ++ "/keys/verify" ++ "\n"
            ++ toString wenv.timestamp_ms ++ "\n" ++ wenv.nonce ++ "\n" ++ sha256_hex "null")))),
        ("X-Body-Sha256", sha256_hex "null")] :=
  ⟨rfl, C2_canonical_string_signature "/api/v1" wparse wenv "POST" wurl "null"
    "mk_sig_test" "/keys/verify" rfl⟩

/-- Witness for C3 at a concrete input: the Strict-mode header set
carries the body hash. -/
theorem C3_witness :
    wopts.bearer_token = Option.some "mk_at_test" ∧
    wopts.signing_secret = Option.some "mk_sig_test" ∧
    canonical_path "/api/v1" wparse wurl = Except.ok "/keys/verify" ∧
    hlookup (("Authorization", "Bearer " ++ "mk_at_test")
      :: signing_header_set wenv "POST" "/keys/verify" "null" "mk_sig_test") "X-Body-Sha256" =
      Option.some (sha256_hex "null") :=
  ⟨rfl, rfl, rfl, (C3_nonce_omits_body_hash_only wopts "/api/v1" wparse wenv "POST" wurl
    "null" "mk_at_test" "mk_sig_test" "/keys/verify" Option.none Option.none
    rfl rfl rfl).2.2.1⟩

/-- Witness for C4 at the exact-match example of the spec: base path `/api/v1`
with URL path `/api/v1` resolves to `/`, which starts with `/`. -/
theorem C4_witness :
    wparse2 wurl2 = Option.some "/api/v1" ∧
    canonical_path "/api/v1" wparse2 wurl2 = Except.ok "/" ∧
    str_starts_with "/" "/" = true :=
  ⟨rfl, rfl, (C4_canonical_path_strips "/api/v1" wparse2 wurl2 "/api/v1" "/" rfl rfl).1⟩

/-- Witness for C5 at a concrete unparseable URL. -/
theorem C5_witness :
    canonical_path "/api/v1" (fun _ => Option.none) "::not a url::" =
      Except.error (NebulAuthError.Url "url parse failed") :=
  (C5_canonical_path_errors "/api/v1" (fun _ => Option.none) "::not a url::").1 rfl

/-- Witness for C6 at a concrete input. -/
theorem C6_witness :
    wopts_strict_nosec.replay_protection = ReplayProtectionMode.Strict ∧
    wopts_strict_nosec.signing_secret = Option.none ∧
    errClass (build_auth_headers wopts_strict_nosec "/api/v1" wparse wenv "POST" wurl
      "null" false Option.none Option.none) = 1 :=
  ⟨rfl, rfl, C6_strict_missing_secret wopts_strict_nosec "/api/v1" wparse wenv "POST"
    wurl "null" Option.none Option.none rfl rfl⟩

/-- Witness for C7 at a concrete input: mode `None` with a bearer token
yields exactly the single bearer header. -/
theorem C7_witness :
    wopts.replay_protection = ReplayProtectionMode.None ∧
    wopts.bearer_token = Option.some "mk_at_test" ∧
    build_auth_headers wopts "/api/v1" wparse wenv "POST" wurl "null" false
        Option.none Option.none =
      Except.ok [("Authorization", "Bearer " ++ "mk_at_test")] :=
  ⟨rfl, rfl, (C7_none_mode_bearer_only wopts "/api/v1" wparse wenv "POST" wurl "null"
    "mk_at_test" Option.none Option.none rfl).2 rfl⟩

/-- Witness for C8 at concrete newline-free fields. -/
theorem C8_witness :
    nlFree "POST" ∧ nlFree "/keys/verify" ∧ nlFree "1700000000000" ∧
    nlFree "abc123" ∧ nlFree "h" ∧
    ("POST" = "POST" ∧ "/keys/verify" = "/keys/verify" ∧
      "1700000000000" = "1700000000000" ∧ "abc123" = "abc123" ∧ "h" = "h") :=
  ⟨by decide, by decide, by decide, by decide, by decide,
   C8_canonical_string_injective "POST" "/keys/verify" "1700000000000" "abc123" "h"
     "POST" "/keys/verify" "1700000000000" "abc123" "h"
     (by decide) (by decide) (by decide) (by decide) (by decide)
     (by decide) (by decide) (by decide) (by decide) (by decide) rfl⟩

end NebulAuth
